import Mathlib

/-!
Shallow embedding of the AI Note Taker popup (src/popup.js) in Lean 4.

The popup keeps an in-memory list of notes, each note an ordered list of
titled sections.  Mutating operations are note generation (append), section
deletion and section renaming; every mutation is persisted to a key-value
storage adapter.  The external AI and storage APIs are modelled by an
explicit environment record whose fields give the outcome of each call.
-/

namespace Popup

/-- Embedding of a section record `{ title, content }` (popup.js lines 74-87). -/
structure Section where
  title : String
  content : String
deriving DecidableEq, Repr

/-- Embedding of a note record `{ id, timestamp, sections }` (popup.js lines 71-88). -/
structure Note where
  id : Nat
  timestamp : String
  sections : List Section
deriving DecidableEq, Repr

/-- Visibility of the three views (initialView, notesView, loadingView);
each is an element whose `display` style is toggled independently. -/
structure ViewState where
  initialVisible : Bool
  notesVisible : Bool
  loadingVisible : Bool
deriving DecidableEq, Repr

/-- The mutable popup state: module-level `notes` and `currentNoteIndex`
(popup.js lines 2-3) together with the DOM state the handlers touch
(view visibility, the text input's value, and the error element's innerHTML). -/
structure PopupState where
  notes : List Note
  currentNoteIndex : Nat
  view : ViewState
  inputText : String
  errorMsg : String
deriving DecidableEq, Repr

/-- Embedding of `showLoading` (popup.js lines 224-228). -/
def showLoading (s : PopupState) : PopupState :=
  { s with view := ⟨false, false, true⟩ }

/-- Embedding of `showNotesView` (popup.js lines 218-222). -/
def showNotesView (s : PopupState) : PopupState :=
  { s with view := ⟨false, true, false⟩ }

/-- Embedding of `hideLoading` (popup.js lines 230-233): hides the loading
view and shows the initial view; the notes view's visibility is untouched. -/
def hideLoading (s : PopupState) : PopupState :=
  { s with view := { s.view with loadingVisible := false, initialVisible := true } }

/-- Embedding of `showInitialView` (popup.js lines 210-216). -/
def showInitialView (s : PopupState) : PopupState :=
  { s with view := ⟨true, false, false⟩, inputText := "", errorMsg := "" }

/-- Embedding of `showError` (popup.js lines 235-237): writes the error
element's innerHTML from the message. -/
def showError (message : String) (s : PopupState) : PopupState :=
  { s with errorMsg := "<div class=\"error\">" ++ message ++ "</div>" }

/-- Embedding of `renderNotes` restricted to its effect on the embedded
state (popup.js lines 110-179): with an empty store it falls back to
`showInitialView`; otherwise it only rebuilds DOM nodes from the store. -/
def renderNotes (s : PopupState) : PopupState :=
  if s.notes.length = 0 then showInitialView s else s

/-- Pure core of `deleteSection` (popup.js lines 197-204): if the addressed
note has exactly one section the whole note is spliced out of the list,
otherwise the addressed section is spliced out of the note.  `splice(i, 1)`
on an array is `List.eraseIdx i`.  An out-of-range `noteIndex` throws in JS;
the claims only address valid indices, so that case is modelled as a no-op. -/
def deleteSectionNotes (notes : List Note) (noteIndex sectionIndex : Nat) : List Note :=
  match notes[noteIndex]? with
  | none => notes
  | some note =>
    if note.sections.length = 1 then
      notes.eraseIdx noteIndex
    else
      notes.set noteIndex { note with sections := note.sections.eraseIdx sectionIndex }

/-- Pure core of the title blur handler (popup.js line 133):
`notes[noteIndex].sections[sectionIndex].title = newTitle`.  Out-of-range
indices throw in JS; the claims only address valid indices, so that case is
modelled as a no-op. -/
def renameSectionNotes (notes : List Note) (noteIndex sectionIndex : Nat)
    (newTitle : String) : List Note :=
  match notes[noteIndex]? with
  | none => notes
  | some note =>
    match note.sections[sectionIndex]? with
    | none => notes
    | some sec =>
      notes.set noteIndex
        { note with sections := note.sections.set sectionIndex { sec with title := newTitle } }

/-- State of the storage adapter: the single `notes` key of
`chrome.storage.local` (`none` when the key has never been written). -/
structure Storage where
  stored : Option (List Note)
deriving DecidableEq, Repr

/-- Embedding of `saveNotes` (popup.js lines 240-246): attempts
`chrome.storage.local.set({ notes })`; a rejection is caught and logged to
the console only, leaving storage unchanged.  `saveOk` is the outcome of the
external `set` call. -/
def saveNotes (saveOk : Bool) (notes : List Note) (st : Storage) : Storage :=
  if saveOk then ⟨some notes⟩ else st

/-- Embedding of `loadNotes` (popup.js lines 248-261): reads the `notes` key;
if the key is present (any array, even empty, is truthy) the in-memory list
is replaced and the store re-rendered, switching to the notes view when
non-empty.  A rejected `get` is caught and logged only.  `loadOk` is the
outcome of the external `get` call. -/
def loadNotes (loadOk : Bool) (st : Storage) (s : PopupState) : PopupState :=
  if loadOk then
    match st.stored with
    | none => s
    | some ns =>
      let s1 := renderNotes { s with notes := ns }
      if 0 < ns.length then showNotesView s1 else s1
  else s

/-- Embedding of `deleteSection` (popup.js lines 197-208): mutate the list,
then `saveNotes()` and `renderNotes()`. -/
def deleteSection (saveOk : Bool) (noteIndex sectionIndex : Nat)
    (s : PopupState) (st : Storage) : PopupState × Storage :=
  let notes2 := deleteSectionNotes s.notes noteIndex sectionIndex
  (renderNotes { s with notes := notes2 }, saveNotes saveOk notes2 st)

/-- Embedding of the title blur handler (popup.js lines 132-135): write the
edited title into the store, then `saveNotes()`. -/
def renameSection (saveOk : Bool) (noteIndex sectionIndex : Nat) (newTitle : String)
    (s : PopupState) (st : Storage) : PopupState × Storage :=
  let notes2 := renameSectionNotes s.notes noteIndex sectionIndex newTitle
  ({ s with notes := notes2 }, saveNotes saveOk notes2 st)

/-- Result object of a JS `capabilities()` call. -/
structure Capabilities where
  available : String
deriving DecidableEq, Repr

/-- A thrown JS error, reduced to its `message` property. -/
structure JSError where
  message : String
deriving DecidableEq, Repr

/-- Outcomes of the external AI API calls made by `generateNotes`.  A
`capabilities` field is `Except.ok none` when the optional chain
`window.ai?.x?.capabilities()` short-circuits to `undefined`, `Except.ok
(some c)` when the call returns `c`, and `Except.error e` when it throws. -/
structure AIEnv where
  summarizerCaps : Except JSError (Option Capabilities)
  languageModelCaps : Except JSError (Option Capabilities)
  createSummarizer : Except JSError Unit
  summarize : String → Except JSError String
  createSession : Except JSError Unit
  prompt : String → Except JSError String

/-- One call to the AI client, recorded in the order it is issued. -/
inductive AIEvent
  | capSummarizer
  | capLanguageModel
  | createSummarizer
  | summarize
  | createSession
  | prompt
  | destroySummarizer
  | destroySession
deriving DecidableEq, Repr

/-- Observable outcome of one `generateNotes` invocation: the popup state,
the storage state, the AI calls issued, and the error captured by the
`catch` clause (`none` when no error was thrown). -/
structure GenResult where
  state : PopupState
  storage : Storage
  events : List AIEvent
  caught : Option JSError
deriving Repr

/-- Executable model of `String.prototype.trim` as used in popup.js line 33:
drop leading and trailing whitespace characters. -/
def jsTrim (s : String) : String :=
  String.mk (((s.data.dropWhile Char.isWhitespace).reverse.dropWhile Char.isWhitespace).reverse)

/-- The validation message of popup.js line 36. -/
def emptyInputMsg : String := "Please paste some text to generate notes."

/-- The descriptive unavailability message of popup.js line 48. -/
def apiUnavailableMsg : String :=
  "Chrome Built-in AI APIs are not available. Make sure you have Chrome 127+ with AI features enabled."

/-- The reflection prompt template of popup.js line 67. -/
def reflectionPrompt (summary : String) : String :=
  "Based on these notes:\n\n" ++ summary ++
    "\n\nWrite a brief reflection (2-3 sentences) about the key insights and their significance."

/-- The `canSummarize?.available === 'no'` test of popup.js line 47: an
`undefined` chain result compares unequal to the string. -/
def availableNo : Option Capabilities → Bool
  | some c => c.available == "no"
  | none => false

/-- Embedding of the `catch` clause (popup.js lines 103-107):
`hideLoading(); showError(Error: + error.message)`. -/
def catchError (e : JSError) (s : PopupState) : PopupState :=
  showError ("Error: " ++ e.message) (hideLoading s)

/-- The note built on the success path (popup.js lines 71-88). -/
def noteOf (now : Nat) (iso sm rf text : String) : Note :=
  { id := now, timestamp := iso,
    sections := [⟨"Summary", sm⟩, ⟨"Reflection", rf⟩, ⟨"Original Text", text⟩] }

/-- The popup state at the end of the success path (popup.js lines 90-101):
push the note, set `currentNoteIndex`, re-render, show the notes view,
clear the input. -/
def successState (now : Nat) (iso sm rf : String) (s : PopupState) : PopupState :=
  let s1 := showLoading s
  let notes2 := s1.notes ++ [noteOf now iso sm rf (jsTrim s.inputText)]
  let s2 := { s1 with notes := notes2, currentNoteIndex := notes2.length - 1 }
  { showNotesView (renderNotes s2) with inputText := "" }

/-- The full event trace of a successful generation. -/
def successEvents : List AIEvent :=
  [.capSummarizer, .capLanguageModel, .createSummarizer, .summarize,
   .createSession, .prompt, .destroySummarizer, .destroySession]

/-- Embedding of `generateNotes` (popup.js lines 32-108).  The input text is
trimmed; an empty result shows the validation error and returns before any
AI call.  Otherwise both capability queries run, the availability check may
throw the descriptive error, then summarizer creation, summarization,
session creation and the reflection prompt run in order; any thrown error
transfers control to the `catch` clause.  On success the note is appended,
persisted (failures logged only), both instances destroyed and the view
updated.  `now` and `iso` stand for `Date.now()` and
`new Date().toISOString()`; `saveOk` is the storage `set` outcome. -/
def generateNotes (env : AIEnv) (saveOk : Bool) (now : Nat) (iso : String)
    (s : PopupState) (st : Storage) : GenResult :=
  let text := (jsTrim s.inputText)
  if text = "" then
    ⟨showError emptyInputMsg s, st, [], none⟩
  else
    let s1 := showLoading s
    match env.summarizerCaps with
    | .error e => ⟨catchError e s1, st, [.capSummarizer], some e⟩
    | .ok canSummarize =>
      match env.languageModelCaps with
      | .error e => ⟨catchError e s1, st, [.capSummarizer, .capLanguageModel], some e⟩
      | .ok canUseLanguageModel =>
        if availableNo canSummarize || availableNo canUseLanguageModel then
          ⟨catchError ⟨apiUnavailableMsg⟩ s1, st,
            [.capSummarizer, .capLanguageModel], some ⟨apiUnavailableMsg⟩⟩
        else
          match env.createSummarizer with
          | .error e =>
            ⟨catchError e s1, st,
              [.capSummarizer, .capLanguageModel, .createSummarizer], some e⟩
          | .ok _ =>
            match env.summarize text with
            | .error e =>
              ⟨catchError e s1, st,
                [.capSummarizer, .capLanguageModel, .createSummarizer, .summarize], some e⟩
            | .ok sm =>
              match env.createSession with
              | .error e =>
                ⟨catchError e s1, st,
                  [.capSummarizer, .capLanguageModel, .createSummarizer, .summarize,
                   .createSession], some e⟩
              | .ok _ =>
                match env.prompt (reflectionPrompt sm) with
                | .error e =>
                  ⟨catchError e s1, st,
                    [.capSummarizer, .capLanguageModel, .createSummarizer, .summarize,
                     .createSession, .prompt], some e⟩
                | .ok rf =>
                  ⟨successState now iso sm rf s,
                    saveNotes saveOk (s.notes ++ [noteOf now iso sm rf text]) st,
                    successEvents, none⟩

/-- A sample generated note with the three standard sections. -/
def wNote1 : Note :=
  { id := 1, timestamp := "2026-01-01T00:00:00.000Z",
    sections := [⟨"Summary", "s"⟩, ⟨"Reflection", "r"⟩, ⟨"Original Text", "o"⟩] }

/-- A sample note reduced to a single remaining section. -/
def wNote2 : Note :=
  { id := 2, timestamp := "2026-01-02T00:00:00.000Z", sections := [⟨"Summary", "x"⟩] }

/-- A sample popup state holding the two sample notes. -/
def wState : PopupState :=
  { notes := [wNote1, wNote2], currentNoteIndex := 0,
    view := ⟨true, false, false⟩, inputText := "  hello world  ", errorMsg := "" }

/-- A sample empty storage. -/
def wStorage : Storage := ⟨none⟩

/-- A sample AI environment in which every call succeeds. -/
def wEnv : AIEnv :=
  { summarizerCaps := .ok (some ⟨"readily"⟩),
    languageModelCaps := .ok (some ⟨"readily"⟩),
    createSummarizer := .ok (),
    summarize := fun t => .ok ("sum: " ++ t),
    createSession := .ok (),
    prompt := fun t => .ok ("refl: " ++ t) }

/-- A sample AI environment whose summarizer capability query throws. -/
def wEnvFail : AIEnv :=
  { wEnv with summarizerCaps := .error ⟨"boom"⟩ }

/-- A sample AI environment whose language model reports unavailable. -/
def wEnvNo : AIEnv :=
  { wEnv with languageModelCaps := .ok (some ⟨"no"⟩) }

@[simp]
theorem showLoading_notes (s : PopupState) : (showLoading s).notes = s.notes := rfl

@[simp]
theorem showLoading_inputText (s : PopupState) : (showLoading s).inputText = s.inputText := rfl

@[simp]
theorem showNotesView_notes (s : PopupState) : (showNotesView s).notes = s.notes := rfl

@[simp]
theorem hideLoading_notes (s : PopupState) : (hideLoading s).notes = s.notes := rfl

@[simp]
theorem showError_notes (m : String) (s : PopupState) : (showError m s).notes = s.notes := rfl

@[simp]
theorem renderNotes_notes (s : PopupState) : (renderNotes s).notes = s.notes := by
  unfold renderNotes showInitialView
  split <;> rfl

@[simp]
theorem renderNotes_currentNoteIndex (s : PopupState) :
    (renderNotes s).currentNoteIndex = s.currentNoteIndex := by
  unfold renderNotes showInitialView
  split <;> rfl

@[simp]
theorem catchError_notes (e : JSError) (s : PopupState) :
    (catchError e s).notes = s.notes := rfl

@[simp]
theorem catchError_errorMsg (e : JSError) (s : PopupState) :
    (catchError e s).errorMsg = "<div class=\"error\">Error: " ++ e.message ++ "</div>" := by
  show "<div class=\"error\">" ++ ("Error: " ++ e.message) ++ "</div>" = _
  rw [← String.append_assoc]
  rfl

@[simp]
theorem catchError_loadingVisible (e : JSError) (s : PopupState) :
    (catchError e s).view.loadingVisible = false := rfl

@[simp]
theorem catchError_initialVisible (e : JSError) (s : PopupState) :
    (catchError e s).view.initialVisible = true := rfl

@[simp]
theorem successState_notes (now : Nat) (iso sm rf : String) (s : PopupState) :
    (successState now iso sm rf s).notes = s.notes ++ [noteOf now iso sm rf (jsTrim s.inputText)] := by
  simp [successState]

@[simp]
theorem successState_currentNoteIndex (now : Nat) (iso sm rf : String) (s : PopupState) :
    (successState now iso sm rf s).currentNoteIndex =
      (s.notes ++ [noteOf now iso sm rf (jsTrim s.inputText)]).length - 1 := by
  simp only [successState, showNotesView, showLoading]
  simp [renderNotes, showInitialView]

/-- Case analysis of one `generateNotes` run, for any storage outcome `b`:
either the trimmed input is empty and the run stops at the validation error;
or an error is thrown and the run ends in the catch clause having issued one
of six call prefixes; or every call succeeds and the run ends in the success
state. -/
theorem generateNotes_shape (env : AIEnv) (now : Nat) (iso : String)
    (s : PopupState) (st : Storage) :
    ((jsTrim s.inputText) = "" ∧ ∀ b,
      generateNotes env b now iso s st = ⟨showError emptyInputMsg s, st, [], none⟩) ∨
    ((jsTrim s.inputText) ≠ "" ∧
      ((∃ e evs, (∀ b,
          generateNotes env b now iso s st = ⟨catchError e (showLoading s), st, evs, some e⟩) ∧
          evs ∈ [[AIEvent.capSummarizer],
                 [AIEvent.capSummarizer, AIEvent.capLanguageModel],
                 [AIEvent.capSummarizer, AIEvent.capLanguageModel, AIEvent.createSummarizer],
                 [AIEvent.capSummarizer, AIEvent.capLanguageModel, AIEvent.createSummarizer,
                  AIEvent.summarize],
                 [AIEvent.capSummarizer, AIEvent.capLanguageModel, AIEvent.createSummarizer,
                  AIEvent.summarize, AIEvent.createSession],
                 [AIEvent.capSummarizer, AIEvent.capLanguageModel, AIEvent.createSummarizer,
                  AIEvent.summarize, AIEvent.createSession, AIEvent.prompt]]) ∨
       (∃ sm rf, env.summarize (jsTrim s.inputText) = .ok sm ∧
          env.prompt (reflectionPrompt sm) = .ok rf ∧ ∀ b,
          generateNotes env b now iso s st =
            ⟨successState now iso sm rf s,
             saveNotes b (s.notes ++ [noteOf now iso sm rf (jsTrim s.inputText)]) st,
             successEvents, none⟩))) := by
  by_cases htrim : (jsTrim s.inputText) = ""
  · exact Or.inl ⟨htrim, fun b => by simp [generateNotes, htrim]⟩
  · refine Or.inr ⟨htrim, ?_⟩
    rcases h1 : env.summarizerCaps with e1 | c1
    · exact Or.inl ⟨e1, [AIEvent.capSummarizer],
        fun b => by simp [generateNotes, htrim, h1], by decide⟩
    rcases h2 : env.languageModelCaps with e2 | c2
    · exact Or.inl ⟨e2, [AIEvent.capSummarizer, AIEvent.capLanguageModel],
        fun b => by simp [generateNotes, htrim, h1, h2], by decide⟩
    by_cases hav : (availableNo c1 || availableNo c2) = true
    · exact Or.inl ⟨⟨apiUnavailableMsg⟩, [AIEvent.capSummarizer, AIEvent.capLanguageModel],
        fun b => by simp [generateNotes, htrim, h1, h2, hav], by decide⟩
    rcases h3 : env.createSummarizer with e3 | u3
    · exact Or.inl ⟨e3,
        [AIEvent.capSummarizer, AIEvent.capLanguageModel, AIEvent.createSummarizer],
        fun b => by simp [generateNotes, htrim, h1, h2, hav, h3], by decide⟩
    rcases h4 : env.summarize (jsTrim s.inputText) with e4 | sm
    · exact Or.inl ⟨e4,
        [AIEvent.capSummarizer, AIEvent.capLanguageModel, AIEvent.createSummarizer,
         AIEvent.summarize],
        fun b => by simp [generateNotes, htrim, h1, h2, hav, h3, h4], by decide⟩
    rcases h5 : env.createSession with e5 | u5
    · exact Or.inl ⟨e5,
        [AIEvent.capSummarizer, AIEvent.capLanguageModel, AIEvent.createSummarizer,
         AIEvent.summarize, AIEvent.createSession],
        fun b => by simp [generateNotes, htrim, h1, h2, hav, h3, h4, h5], by decide⟩
    rcases h6 : env.prompt (reflectionPrompt sm) with e6 | rf
    · exact Or.inl ⟨e6,
        [AIEvent.capSummarizer, AIEvent.capLanguageModel, AIEvent.createSummarizer,
         AIEvent.summarize, AIEvent.createSession, AIEvent.prompt],
        fun b => by simp [generateNotes, htrim, h1, h2, hav, h3, h4, h5, h6], by decide⟩
    · exact Or.inr ⟨sm, rf, rfl, h6,
        fun b => by simp [generateNotes, htrim, h1, h2, hav, h3, h4, h5, h6]⟩

/-- C1: a note in the store always has at least one section: `deleteSection`
on a note whose sections list has length 1 removes the whole note from the
list, and none of the store operations (section deletion, section rename,
generation) leaves any note with zero sections. -/
theorem noteStore_sections_nonempty_invariant
    (s : PopupState) (st : Storage)
    (inv : ∀ n ∈ s.notes, n.sections ≠ []) :
    (∀ saveOk i j note, s.notes[i]? = some note → note.sections.length = 1 →
        (deleteSection saveOk i j s st).1.notes = s.notes.eraseIdx i) ∧
    (∀ saveOk i j, ∀ n ∈ (deleteSection saveOk i j s st).1.notes, n.sections ≠ []) ∧
    (∀ saveOk i j t, ∀ n ∈ (renameSection saveOk i j t s st).1.notes, n.sections ≠ []) ∧
    (∀ env saveOk now iso, ∀ n ∈ (generateNotes env saveOk now iso s st).state.notes,
        n.sections ≠ []) := by
  refine ⟨?_, ?_, ?_, ?_⟩
  · intro saveOk i j note h hlen
    simp [deleteSection, deleteSectionNotes, h, hlen]
  · intro saveOk i j n hn
    simp only [deleteSection, renderNotes_notes] at hn
    unfold deleteSectionNotes at hn
    split at hn
    · exact inv n hn
    · rename_i note h
      split at hn
      · exact inv n (List.mem_of_mem_eraseIdx hn)
      · rename_i hlen
        rcases List.mem_or_eq_of_mem_set hn with hmem | heq
        · exact inv n hmem
        · subst heq
          have hpos : 0 < note.sections.length :=
            List.length_pos.mpr (inv note (List.getElem?_mem h))
          show note.sections.eraseIdx j ≠ []
          apply List.length_pos.mp
          rw [List.length_eraseIdx]
          split <;> omega
  · intro saveOk i j t n hn
    have hx : (renameSection saveOk i j t s st).1.notes =
        renameSectionNotes s.notes i j t := rfl
    rw [hx] at hn
    unfold renameSectionNotes at hn
    split at hn
    · exact inv n hn
    · rename_i note h
      split at hn
      · exact inv n hn
      · rename_i sec hs
        rcases List.mem_or_eq_of_mem_set hn with hmem | heq
        · exact inv n hmem
        · subst heq
          show note.sections.set j _ ≠ []
          apply List.length_pos.mp
          rw [List.length_set]
          exact List.length_pos.mpr (inv note (List.getElem?_mem h))
  · intro env saveOk now iso n hn
    rcases generateNotes_shape env now iso s st with
      ⟨_, heq⟩ | ⟨_, ⟨e, evs, heq, _⟩ | ⟨sm, rf, _, _, heq⟩⟩
    · rw [heq saveOk] at hn
      simp only [showError_notes] at hn
      exact inv n hn
    · rw [heq saveOk] at hn
      simp only [catchError_notes, showLoading_notes] at hn
      exact inv n hn
    · rw [heq saveOk] at hn
      simp only [successState_notes, List.mem_append, List.mem_singleton] at hn
      rcases hn with hmem | rfl
      · exact inv n hmem
      · simp [noteOf]

/-- Witness for C1 at a concrete store: deleting the only section of the
second sample note erases the whole note. -/
theorem noteStore_sections_nonempty_invariant_witness :
    (deleteSection true 1 0 wState wStorage).1.notes = wState.notes.eraseIdx 1 :=
  (noteStore_sections_nonempty_invariant wState wStorage (by decide)).1
    true 1 0 wNote2 (by decide) (by decide)

/-- C5: on a note with at least two sections and an in-range section index,
`deleteSection` keeps the note in the store, with exactly the addressed
section removed and the remaining sections in their original order. -/
theorem deleteSection_removes_exactly_target
    (saveOk : Bool) (i j : Nat) (s : PopupState) (st : Storage) (note : Note)
    (h : s.notes[i]? = some note)
    (h2 : 2 ≤ note.sections.length)
    (hj : j < note.sections.length) :
    ((deleteSection saveOk i j s st).1.notes)[i]? =
      some { note with sections := note.sections.take j ++ note.sections.drop (j + 1) } ∧
    (deleteSection saveOk i j s st).1.notes.length = s.notes.length ∧
    note.sections.length =
      (note.sections.take j ++ note.sections.drop (j + 1)).length + 1 := by
  have hlen : ¬ note.sections.length = 1 := by omega
  have hlt : i < s.notes.length := (List.getElem?_eq_some.mp h).1
  have hnotes : (deleteSection saveOk i j s st).1.notes =
      s.notes.set i { note with sections := note.sections.eraseIdx j } := by
    simp [deleteSection, deleteSectionNotes, h, hlen]
  refine ⟨?_, ?_, ?_⟩
  · rw [hnotes, List.getElem?_set]
    simp [hlt, List.eraseIdx_eq_take_drop_succ]
  · rw [hnotes, List.length_set]
  · rw [List.length_append, List.length_take, List.length_drop, Nat.min_eq_left hj.le]
    omega

/-- Witness for C5 at a concrete store: deleting the middle section of the
three-section sample note. -/
theorem deleteSection_removes_exactly_target_witness :
    ((deleteSection true 0 1 wState wStorage).1.notes)[0]? =
      some { wNote1 with sections := wNote1.sections.take 1 ++ wNote1.sections.drop 2 } ∧
    (deleteSection true 0 1 wState wStorage).1.notes.length = wState.notes.length ∧
    wNote1.sections.length =
      (wNote1.sections.take 1 ++ wNote1.sections.drop 2).length + 1 :=
  deleteSection_removes_exactly_target true 0 1 wState wStorage wNote1
    (by decide) (by decide) (by decide)

/-- C10: `deleteSection` only touches the addressed note: when the whole
note is deleted, the earlier notes are unchanged and the later ones shift
down by one position; otherwise every note at a different index is
unchanged. -/
theorem deleteSection_frame
    (saveOk : Bool) (i j : Nat) (s : PopupState) (st : Storage) (note : Note)
    (h : s.notes[i]? = some note) :
    (note.sections.length = 1 →
      ∀ k, (k < i → ((deleteSection saveOk i j s st).1.notes)[k]? = s.notes[k]?) ∧
           (i ≤ k → ((deleteSection saveOk i j s st).1.notes)[k]? = s.notes[k + 1]?)) ∧
    (note.sections.length ≠ 1 →
      ∀ k, k ≠ i → ((deleteSection saveOk i j s st).1.notes)[k]? = s.notes[k]?) := by
  constructor
  · intro hlen k
    have hnotes : (deleteSection saveOk i j s st).1.notes = s.notes.eraseIdx i := by
      simp [deleteSection, deleteSectionNotes, h, hlen]
    rw [hnotes, List.getElem?_eraseIdx]
    exact ⟨fun hk => if_pos hk, fun hk => if_neg (by omega)⟩
  · intro hlen k hk
    have hnotes : (deleteSection saveOk i j s st).1.notes =
        s.notes.set i { note with sections := note.sections.eraseIdx j } := by
      simp [deleteSection, deleteSectionNotes, h, hlen]
    rw [hnotes, List.getElem?_set, if_neg (fun he => hk he.symm)]

/-- Witness for C10 at a concrete store: deleting the whole second sample
note shifts nothing before it and shifts later positions down by one. -/
theorem deleteSection_frame_witness :
    ((deleteSection true 1 0 wState wStorage).1.notes)[1]? = wState.notes[1 + 1]? :=
  ((deleteSection_frame true 1 0 wState wStorage wNote2 (by decide)).1
    (by decide) 1).2 (by decide)

/-- C2: when the trimmed input is non-empty and generation succeeds (no
error is caught), exactly one note is appended whose sections are, in
order, Summary, Reflection and Original Text, the last carrying the trimmed
input text as content. -/
theorem generateNotes_success_three_sections
    (env : AIEnv) (saveOk : Bool) (now : Nat) (iso : String)
    (s : PopupState) (st : Storage)
    (hne : (jsTrim s.inputText) ≠ "")
    (hok : (generateNotes env saveOk now iso s st).caught = none) :
    ∃ sm rf, (generateNotes env saveOk now iso s st).state.notes =
      s.notes ++ [{ id := now, timestamp := iso,
                    sections := [⟨"Summary", sm⟩, ⟨"Reflection", rf⟩,
                                 ⟨"Original Text", (jsTrim s.inputText)⟩] }] := by
  rcases generateNotes_shape env now iso s st with
    ⟨htrim, _⟩ | ⟨_, ⟨e, evs, heq, _⟩ | ⟨sm, rf, _, _, heq⟩⟩
  · exact absurd htrim hne
  · rw [heq saveOk] at hok
    simp at hok
  · exact ⟨sm, rf, by rw [heq saveOk]; simp [noteOf]⟩

/-- Witness for C2: a successful generation over the sample state. -/
theorem generateNotes_success_three_sections_witness :
    ∃ sm rf, (generateNotes wEnv true 7 "2026-02-01T00:00:00.000Z" wState wStorage).state.notes =
      wState.notes ++ [{ id := 7, timestamp := "2026-02-01T00:00:00.000Z",
                         sections := [⟨"Summary", sm⟩, ⟨"Reflection", rf⟩,
                                      ⟨"Original Text", (jsTrim wState.inputText)⟩] }] :=
  generateNotes_success_three_sections wEnv true 7 "2026-02-01T00:00:00.000Z"
    wState wStorage (by decide) (by decide)

/-- C3: with input that trims to the empty string, `generateNotes` shows the
validation error and returns at once: no AI call is issued, the note store
and the storage adapter are untouched. -/
theorem generateNotes_empty_input_no_ai_calls
    (env : AIEnv) (saveOk : Bool) (now : Nat) (iso : String)
    (s : PopupState) (st : Storage)
    (h : (jsTrim s.inputText) = "") :
    generateNotes env saveOk now iso s st = ⟨showError emptyInputMsg s, st, [], none⟩ ∧
    (generateNotes env saveOk now iso s st).events = [] ∧
    (generateNotes env saveOk now iso s st).state.notes = s.notes ∧
    (generateNotes env saveOk now iso s st).storage = st ∧
    (generateNotes env saveOk now iso s st).state.errorMsg =
      "<div class=\"error\">" ++ emptyInputMsg ++ "</div>" := by
  have heq : generateNotes env saveOk now iso s st =
      ⟨showError emptyInputMsg s, st, [], none⟩ := by
    simp [generateNotes, h]
  exact ⟨heq, by rw [heq], by rw [heq]; rfl, by rw [heq], by rw [heq]; rfl⟩

/-- Witness for C3: whitespace-only input on the sample state. -/
theorem generateNotes_empty_input_no_ai_calls_witness :
    generateNotes wEnv true 7 "iso" { wState with inputText := "   " } wStorage =
      ⟨showError emptyInputMsg { wState with inputText := "   " }, wStorage, [], none⟩ ∧
    (generateNotes wEnv true 7 "iso" { wState with inputText := "   " } wStorage).events = [] ∧
    (generateNotes wEnv true 7 "iso" { wState with inputText := "   " } wStorage).state.notes =
      ({ wState with inputText := "   " } : PopupState).notes ∧
    (generateNotes wEnv true 7 "iso" { wState with inputText := "   " } wStorage).storage =
      wStorage ∧
    (generateNotes wEnv true 7 "iso" { wState with inputText := "   " } wStorage).state.errorMsg =
      "<div class=\"error\">" ++ emptyInputMsg ++ "</div>" :=
  generateNotes_empty_input_no_ai_calls wEnv true 7 "iso"
    { wState with inputText := "   " } wStorage (by decide)

/-- C4: when both capability queries return and either reports `"no"`,
generation ends in the catch clause with the descriptive error, having
issued only the two capability queries: no summarizer and no session is
created. -/
theorem generateNotes_capability_no_fails_fast
    (env : AIEnv) (saveOk : Bool) (now : Nat) (iso : String)
    (s : PopupState) (st : Storage) (c1 c2 : Option Capabilities)
    (hne : (jsTrim s.inputText) ≠ "")
    (h1 : env.summarizerCaps = .ok c1)
    (h2 : env.languageModelCaps = .ok c2)
    (hno : (availableNo c1 || availableNo c2) = true) :
    generateNotes env saveOk now iso s st =
      ⟨catchError ⟨apiUnavailableMsg⟩ (showLoading s), st,
       [AIEvent.capSummarizer, AIEvent.capLanguageModel], some ⟨apiUnavailableMsg⟩⟩ ∧
    AIEvent.createSummarizer ∉ (generateNotes env saveOk now iso s st).events ∧
    AIEvent.createSession ∉ (generateNotes env saveOk now iso s st).events := by
  have heq : generateNotes env saveOk now iso s st =
      ⟨catchError ⟨apiUnavailableMsg⟩ (showLoading s), st,
       [AIEvent.capSummarizer, AIEvent.capLanguageModel], some ⟨apiUnavailableMsg⟩⟩ := by
    simp [generateNotes, hne, h1, h2, hno]
  exact ⟨heq, by rw [heq]; simp, by rw [heq]; simp⟩

/-- Witness for C4: the sample environment whose language model reports
unavailable. -/
theorem generateNotes_capability_no_fails_fast_witness :
    generateNotes wEnvNo true 7 "iso" wState wStorage =
      ⟨catchError ⟨apiUnavailableMsg⟩ (showLoading wState), wStorage,
       [AIEvent.capSummarizer, AIEvent.capLanguageModel], some ⟨apiUnavailableMsg⟩⟩ ∧
    AIEvent.createSummarizer ∉ (generateNotes wEnvNo true 7 "iso" wState wStorage).events ∧
    AIEvent.createSession ∉ (generateNotes wEnvNo true 7 "iso" wState wStorage).events :=
  generateNotes_capability_no_fails_fast wEnvNo true 7 "iso" wState wStorage
    (some ⟨"readily"⟩) (some ⟨"no"⟩) (by decide) rfl rfl (by decide)

/-- C6: whatever error is thrown inside the try block, the single catch
clause handles it: the loading view is hidden (the initial view shown), the
error element displays the caught message verbatim inside the fixed
wrapper, and no AI call is repeated (the event trace has no duplicates). -/
theorem generateNotes_failure_single_catch
    (env : AIEnv) (saveOk : Bool) (now : Nat) (iso : String)
    (s : PopupState) (st : Storage) (e : JSError)
    (hc : (generateNotes env saveOk now iso s st).caught = some e) :
    (generateNotes env saveOk now iso s st).state.view.loadingVisible = false ∧
    (generateNotes env saveOk now iso s st).state.view.initialVisible = true ∧
    (generateNotes env saveOk now iso s st).state.errorMsg =
      "<div class=\"error\">Error: " ++ e.message ++ "</div>" ∧
    (generateNotes env saveOk now iso s st).events.Nodup := by
  rcases generateNotes_shape env now iso s st with
    ⟨_, heq⟩ | ⟨_, ⟨e', evs, heq, hmem⟩ | ⟨sm, rf, _, _, heq⟩⟩
  · rw [heq saveOk] at hc
    simp at hc
  · rw [heq saveOk] at hc
    simp only [Option.some.injEq] at hc
    subst hc
    rw [heq saveOk]
    refine ⟨rfl, rfl, catchError_errorMsg e' (showLoading s), ?_⟩
    show evs.Nodup
    fin_cases hmem <;> decide
  · rw [heq saveOk] at hc
    simp at hc

/-- Witness for C6: a failing summarizer capability query on the sample
state. -/
theorem generateNotes_failure_single_catch_witness :
    (generateNotes wEnvFail true 7 "iso" wState wStorage).state.view.loadingVisible = false ∧
    (generateNotes wEnvFail true 7 "iso" wState wStorage).state.view.initialVisible = true ∧
    (generateNotes wEnvFail true 7 "iso" wState wStorage).state.errorMsg =
      "<div class=\"error\">Error: " ++ JSError.message ⟨"boom"⟩ ++ "</div>" ∧
    (generateNotes wEnvFail true 7 "iso" wState wStorage).events.Nodup :=
  generateNotes_failure_single_catch wEnvFail true 7 "iso" wState wStorage
    ⟨"boom"⟩ (by decide)

/-- C9: after a successful generation the appended note is the active one:
`currentNoteIndex` equals the note store's length minus one, i.e. the index
of the new last note. -/
theorem generateNotes_success_currentNoteIndex
    (env : AIEnv) (saveOk : Bool) (now : Nat) (iso : String)
    (s : PopupState) (st : Storage)
    (hne : (jsTrim s.inputText) ≠ "")
    (hok : (generateNotes env saveOk now iso s st).caught = none) :
    (generateNotes env saveOk now iso s st).state.currentNoteIndex =
      (generateNotes env saveOk now iso s st).state.notes.length - 1 ∧
    (generateNotes env saveOk now iso s st).state.currentNoteIndex = s.notes.length := by
  rcases generateNotes_shape env now iso s st with
    ⟨htrim, _⟩ | ⟨_, ⟨e, evs, heq, _⟩ | ⟨sm, rf, _, _, heq⟩⟩
  · exact absurd htrim hne
  · rw [heq saveOk] at hok
    simp at hok
  · rw [heq saveOk]
    constructor <;> simp

/-- Witness for C9: the successful sample generation. -/
theorem generateNotes_success_currentNoteIndex_witness :
    (generateNotes wEnv true 7 "iso" wState wStorage).state.currentNoteIndex =
      (generateNotes wEnv true 7 "iso" wState wStorage).state.notes.length - 1 ∧
    (generateNotes wEnv true 7 "iso" wState wStorage).state.currentNoteIndex =
      wState.notes.length :=
  generateNotes_success_currentNoteIndex wEnv true 7 "iso" wState wStorage
    (by decide) (by decide)

@[simp]
theorem loadNotes_true_some_notes (ns : List Note) (s2 : PopupState) :
    (loadNotes true ⟨some ns⟩ s2).notes = ns := by
  simp only [loadNotes]
  split
  · split <;> simp
  · rename_i ha
    exact absurd trivial ha

/-- C7: renaming a section, persisting the store, and loading it back from
storage yields a note store in which that section carries the new title. -/
theorem renameSection_save_load_roundtrip
    (i j : Nat) (t : String) (s s2 : PopupState) (st : Storage)
    (note : Note) (sec : Section)
    (h : s.notes[i]? = some note) (hs : note.sections[j]? = some sec) :
    ((loadNotes true (renameSection true i j t s st).2 s2).notes[i]?.bind
        (fun n => n.sections[j]?)).map Section.title = some t := by
  have hlt : i < s.notes.length := (List.getElem?_eq_some.mp h).1
  have hjlt : j < note.sections.length := (List.getElem?_eq_some.mp hs).1
  have hst : (renameSection true i j t s st).2 =
      ⟨some (renameSectionNotes s.notes i j t)⟩ := rfl
  rw [hst, loadNotes_true_some_notes]
  simp only [renameSectionNotes, h, hs]
  simp [List.getElem?_set, hlt, hjlt]

/-- Witness for C7: renaming the first sample note's first section to
"Key Points" survives the save-then-load round trip. -/
theorem renameSection_save_load_roundtrip_witness :
    ((loadNotes true (renameSection true 0 0 "Key Points" wState wStorage).2 wState).notes[0]?.bind
        (fun n => n.sections[0]?)).map Section.title = some "Key Points" :=
  renameSection_save_load_roundtrip 0 0 "Key Points" wState wState wStorage
    wNote1 ⟨"Summary", "s"⟩ rfl rfl

/-- C8: every store mutation (section deletion, section rename, successful
generation) persists the new list to the storage adapter; when the persist
fails, storage is unchanged and the popup state — note store, views and
error element alike — is exactly the state of a successful persist, so the
failure is invisible to the user. -/
theorem mutations_persist_failures_logged_only
    (s : PopupState) (st : Storage) :
    (∀ i j, (deleteSection true i j s st).2 = ⟨some (deleteSectionNotes s.notes i j)⟩ ∧
       (deleteSection false i j s st).2 = st ∧
       (deleteSection false i j s st).1 = (deleteSection true i j s st).1) ∧
    (∀ i j t,
       (renameSection true i j t s st).2 = ⟨some (renameSectionNotes s.notes i j t)⟩ ∧
       (renameSection false i j t s st).2 = st ∧
       (renameSection false i j t s st).1 = (renameSection true i j t s st).1) ∧
    (∀ env now iso,
       (generateNotes env false now iso s st).state =
         (generateNotes env true now iso s st).state ∧
       (generateNotes env false now iso s st).events =
         (generateNotes env true now iso s st).events ∧
       (generateNotes env false now iso s st).storage = st ∧
       ((generateNotes env true now iso s st).caught = none → (jsTrim s.inputText) ≠ "" →
         (generateNotes env true now iso s st).storage =
           ⟨some ((generateNotes env true now iso s st).state.notes)⟩)) := by
  refine ⟨fun i j => ⟨rfl, rfl, rfl⟩, fun i j t => ⟨rfl, rfl, rfl⟩, fun env now iso => ?_⟩
  rcases generateNotes_shape env now iso s st with
    ⟨htrim, heq⟩ | ⟨htrim, ⟨e, evs, heq, _⟩ | ⟨sm, rf, _, _, heq⟩⟩
  · rw [heq true, heq false]
    exact ⟨rfl, rfl, rfl, fun _ hne => absurd htrim hne⟩
  · rw [heq true, heq false]
    refine ⟨rfl, rfl, rfl, fun hc _ => ?_⟩
    simp at hc
  · rw [heq true, heq false]
    refine ⟨rfl, rfl, rfl, fun _ _ => ?_⟩
    show saveNotes true _ st = _
    simp [saveNotes]

/-- Witness for C8: a concrete deletion persists the new list, a failing
persist leaves storage and popup state as on success, and the sample
successful generation writes the appended store to storage. -/
theorem mutations_persist_failures_logged_only_witness :
    ((deleteSection true 0 0 wState wStorage).2 =
       ⟨some (deleteSectionNotes wState.notes 0 0)⟩ ∧
     (deleteSection false 0 0 wState wStorage).2 = wStorage ∧
     (deleteSection false 0 0 wState wStorage).1 = (deleteSection true 0 0 wState wStorage).1) ∧
    (generateNotes wEnv true 7 "iso" wState wStorage).storage =
      ⟨some ((generateNotes wEnv true 7 "iso" wState wStorage).state.notes)⟩ :=
  ⟨(mutations_persist_failures_logged_only wState wStorage).1 0 0,
   ((mutations_persist_failures_logged_only wState wStorage).2.2 wEnv 7 "iso").2.2.2
     rfl (by decide)⟩

end Popup
